import Mathlib

/-!
Verification of the prompt-runner job planning and scheduling engine.

This file shallowly embeds the Python source of the repository:
  * `utils/job_planner.py`   — frame-chunk planning (`JobPlanner`)
  * `services/job_queue_manager.py` — the thread-safe job queue (`JobQueueManager`)
  * `models/dual_instance.py` — instance/state data model
  * `services/multi_instance_client.py` — backend instance pool
  * `services/comfyui_client.py` / `services/job_orchestrator.py` — retry and
    orchestration loop
and proves or refutes the specification claims about them.

Modelling conventions: Python `int` becomes `Nat`/`Int`; Python dicts become
association lists; FIFO `queue.Queue` becomes a list (head = front of queue);
values produced by effects (uuid job ids, wall-clock timestamps, backend
responses) become parameters or opaque string fields never inspected by the
embedded logic; `float` execution times become `ℚ` (no claim depends on the
rounding of these metrics).
-/

namespace PromptRunner

/-! ## Configuration constants (`config.py`) -/

/-- `config.py`: `MAX_RETRIES = 3`. -/
def MAX_RETRIES : Nat := 3

/-! ## Job model (`models/job.py`) -/

/-- `models/job.py`: `JobStatus`. -/
inductive JobStatus
  | PENDING
  | RUNNING
  | COMPLETED
  | FAILED
  | SKIPPED
deriving DecidableEq, Repr

/-- Job stages, `HIGH` (coarse pass) and `LOW` (refine pass), as used by
`utils/job_planner.py` and `services/job_queue_manager.py` (`JobType`). -/
inductive JobType
  | HIGH
  | LOW
deriving DecidableEq, Repr

/-- String value of a `JobType`, matching the Python enum `.value`. -/
def JobType.value : JobType → String
  | .HIGH => "HIGH"
  | .LOW => "LOW"

/-- `models/job.py`: `RenderJob`, restricted to the fields read by the planner,
queue manager and orchestrator.  `jobId` stands for the uuid4 string. -/
structure RenderJob where
  jobId : String := ""
  jobNumber : Nat := 0
  jobType : JobType := .HIGH
  startFrame : Nat := 0
  framesToRender : Nat := 101
  status : JobStatus := .PENDING
  retryCount : Nat := 0
deriving DecidableEq, Repr

/-- `models/job.py`: `CombineJob`.  Paths are keyed by job / combine numbers in
the storage layer, so they are modelled by those numbers;
`previousCombined` is `none` iff the Python `previous_combined_path` is `None`. -/
structure CombineJob where
  jobId : String := ""
  combineNumber : Nat := 0
  inputFromJobNumber : Nat := 0
  previousCombined : Option Nat := none
  status : JobStatus := .PENDING
  retryCount : Nat := 0
deriving DecidableEq, Repr

/-! ## Frame planner (`utils/job_planner.py`, `JobPlanner.calculate_job_sequence`)

The planner computes `num_chunks = math.ceil(total_frames / frames_per_chunk)`
and then loops `num_chunks` times with
`chunk_frames = min(frames_per_chunk, total_frames - current_frame)` and
`current_frame += chunk_frames`.  Each chunk yields a HIGH job and a LOW job
with consecutive job numbers. -/

/-- The chunk loop of `calculate_job_sequence`: runs for the given number of
iterations, producing `(start_frame, chunk_frames)` pairs. -/
def chunkLoop (total chunk : Nat) : Nat → Nat → List (Nat × Nat)
  | 0, _ => []
  | n + 1, current =>
      (current, min chunk (total - current)) ::
        chunkLoop total chunk n (current + min chunk (total - current))

/-- `math.ceil(total_frames / frames_per_chunk)`, modelled as the exact
integer ceiling.  Python computes the quotient by binary64 float division, so
the exact ceiling is faithful only for `total < 2^53`: there the rounded
quotient cannot cross an integer boundary (the quotient exceeds the integer
below it by at least `1/chunk`, while the rounding error is at most
`ulp(q)/2 = 2^(k-53) < 1/chunk` when `total < 2^53`), whereas for larger
totals the float quotient can round down — `(2^53 + 1) / 1` rounds to `2^53`
and the program then plans fewer chunks than the exact ceiling.  Properties
that depend on the exact iteration count therefore hold of the program only
on `total < 2^53`; properties proved per-iteration (chunk chaining, job
numbering) are count-independent. -/
def numChunks (total chunk : Nat) : Nat :=
  (total + chunk - 1) / chunk

/-- The ordered list of `(start_frame, chunk_frames)` chunks planned by
`calculate_job_sequence`. -/
def calcChunks (total chunk : Nat) : List (Nat × Nat) :=
  chunkLoop total chunk (numChunks total chunk) 0

/-- The render-job creation loop: for each chunk a HIGH job (odd numbers
1, 3, 5, …) followed by a LOW job (even numbers 2, 4, 6, …), both covering the
chunk's frame range. -/
def renderJobsOfChunks : List (Nat × Nat) → Nat → List RenderJob
  | [], _ => []
  | (s, f) :: rest, jobNumber =>
      { jobNumber := jobNumber, jobType := .HIGH, startFrame := s,
        framesToRender := f } ::
      { jobNumber := jobNumber + 1, jobType := .LOW, startFrame := s,
        framesToRender := f } ::
      renderJobsOfChunks rest (jobNumber + 2)

/-- The combine-job creation loop of `calculate_job_sequence`: one combine job
per LOW render job, numbered from 1, chaining `previous_combined_path`. -/
def combineJobsOfRender : List RenderJob → Nat → Option Nat → List CombineJob
  | [], _, _ => []
  | j :: rest, combineNumber, prev =>
      if j.jobType = .LOW then
        { combineNumber := combineNumber, inputFromJobNumber := j.jobNumber,
          previousCombined := prev } ::
        combineJobsOfRender rest (combineNumber + 1) (some combineNumber)
      else
        combineJobsOfRender rest combineNumber prev

/-- `JobPlanner.calculate_job_sequence`: the full `(render_jobs, combine_jobs)`
plan for `total_frames` at `frames_per_chunk` frames per chunk. -/
def calculateJobSequence (total chunk : Nat) :
    List RenderJob × List CombineJob :=
  let renderJobs := renderJobsOfChunks (calcChunks total chunk) 1
  (renderJobs, combineJobsOfRender renderJobs 1 none)

/-- `JobPlanner.get_job_dependencies`: job numbers that must complete before a
job can run (LOW depends on the preceding HIGH; HIGH with number ≥ 3 depends on
the LOW two positions back, for the reference image). -/
def getJobDependencies (job : RenderJob) : List Nat :=
  (if job.jobType = .LOW then [job.jobNumber - 1] else []) ++
    (if job.jobType = .HIGH ∧ 3 ≤ job.jobNumber then [job.jobNumber - 2] else [])

/-- `JobPlanner.can_job_run`: all dependencies are among the completed jobs. -/
def canJobRun (job : RenderJob) (completedJobs : List Nat) : Bool :=
  (getJobDependencies job).all (fun dep => decide (dep ∈ completedJobs))

/-! ### Planner lemmas -/

/-- Consecutive planned chunks abut: the next chunk starts exactly where the
previous one ended (`current_frame += chunk_frames`, no overlap). -/
lemma chunkLoop_chain_adjacent (total chunk : Nat) :
    ∀ (n current : Nat),
      List.Chain' (fun a b : Nat × Nat => b.1 = a.1 + a.2)
        (chunkLoop total chunk n current) := by
  intro n
  induction n with
  | zero => intro current ; exact List.chain'_nil
  | succ n ih =>
      intro current
      rw [chunkLoop, List.chain'_cons']
      refine ⟨?_, ih _⟩
      intro b hb
      cases n with
      | zero => simp [chunkLoop] at hb
      | succ m =>
          rw [chunkLoop] at hb
          simp only [List.head?_cons, Option.mem_def, Option.some.injEq] at hb
          rw [← hb]

/-- Core invariant of the chunk loop: when the iteration count is exactly the
ceiling of the remaining frames over the chunk size, the chunk frame counts sum
to the remaining frames and the start frames are strictly increasing. -/
lemma chunkLoop_sum_mono (total chunk : Nat) (hc : 0 < chunk) :
    ∀ (n current : Nat), (total - current + chunk - 1) / chunk = n →
      ((chunkLoop total chunk n current).map Prod.snd).sum = total - current ∧
      List.Chain' (fun a b : Nat × Nat => a.1 < b.1)
        (chunkLoop total chunk n current) := by
  intro n
  induction n with
  | zero =>
      intro current h
      have hrem : total - current = 0 := by
        by_contra hne
        have hle : chunk ≤ total - current + chunk - 1 := by omega
        have h1 : 1 ≤ (total - current + chunk - 1) / chunk := by
          calc 1 = chunk / chunk := (Nat.div_self hc).symm
          _ ≤ (total - current + chunk - 1) / chunk := Nat.div_le_div_right hle
        rw [h] at h1
        omega
      refine ⟨?_, by simp [chunkLoop]⟩
      simp [chunkLoop, hrem]
  | succ n ih =>
      intro current h
      have hrempos : 0 < total - current := by
        by_contra hz
        have hrem0 : total - current = 0 := by omega
        rw [hrem0] at h
        have h0 : (0 + chunk - 1) / chunk = 0 := Nat.div_eq_of_lt (by omega)
        rw [h0] at h
        omega
      have hkey : (total - current - 1) / chunk = n := by
        have heq : total - current + chunk - 1 = total - current - 1 + chunk := by
          omega
        rw [heq, Nat.add_div_right _ hc] at h
        exact Nat.add_right_cancel h
      have hfpos : 0 < min chunk (total - current) := by omega
      have hnextceil :
          (total - (current + min chunk (total - current)) + chunk - 1) / chunk
            = n := by
        rcases le_or_lt (total - current) chunk with hle | hlt
        · have hmin : min chunk (total - current) = total - current := by omega
          rw [hmin]
          have hz : total - (current + (total - current)) = 0 := by omega
          rw [hz]
          have h0 : (0 + chunk - 1) / chunk = 0 := Nat.div_eq_of_lt (by omega)
          have hn0 : n = 0 := by
            have hd : (total - current - 1) / chunk = 0 :=
              Nat.div_eq_of_lt (by omega)
            rw [← hkey, hd]
          rw [h0, hn0]
        · have hmin : min chunk (total - current) = chunk := by omega
          rw [hmin]
          have heq2 : total - (current + chunk) + chunk - 1
              = total - current - 1 := by omega
          rw [heq2]
          exact hkey
      obtain ⟨ihsum, ihmono⟩ := ih (current + min chunk (total - current)) hnextceil
      constructor
      · rw [chunkLoop]
        simp only [List.map_cons, List.sum_cons]
        rw [ihsum]
        omega
      · rw [chunkLoop, List.chain'_cons']
        refine ⟨?_, ihmono⟩
        intro b hb
        cases n with
        | zero => simp [chunkLoop] at hb
        | succ m =>
            rw [chunkLoop] at hb
            simp only [List.head?_cons, Option.mem_def, Option.some.injEq] at hb
            rw [← hb]
            simp only []
            omega

/-- The render jobs created for a chunk list carry consecutive job numbers
starting at the given first number (two jobs per chunk). -/
lemma renderJobsOfChunks_map_jobNumber :
    ∀ (chunks : List (Nat × Nat)) (s : Nat),
      (renderJobsOfChunks chunks s).map (fun j => j.jobNumber)
        = List.range' s (2 * chunks.length) := by
  intro chunks
  induction chunks with
  | nil => intro s ; simp [renderJobsOfChunks]
  | cons c rest ih =>
      intro s
      obtain ⟨cs, cf⟩ := c
      rw [renderJobsOfChunks]
      simp only [List.map_cons, List.length_cons]
      rw [ih (s + 2),
        show 2 * (rest.length + 1) = 2 * rest.length + 1 + 1 from rfl,
        List.range'_succ, List.range'_succ]

/-- There are two render jobs per chunk. -/
lemma renderJobsOfChunks_length (chunks : List (Nat × Nat)) (s : Nat) :
    (renderJobsOfChunks chunks s).length = 2 * chunks.length := by
  have h := congrArg List.length (renderJobsOfChunks_map_jobNumber chunks s)
  simpa using h

/-- The combine jobs created from an alternating HIGH/LOW render-job list (one
per chunk, i.e. one per LOW job) carry consecutive combine numbers starting at
the given first number. -/
lemma combineJobsOfRender_map_number :
    ∀ (chunks : List (Nat × Nat)) (s k : Nat) (prev : Option Nat),
      (combineJobsOfRender (renderJobsOfChunks chunks s) k prev).map
          (fun c => c.combineNumber)
        = List.range' k chunks.length := by
  intro chunks
  induction chunks with
  | nil => intros ; simp [renderJobsOfChunks, combineJobsOfRender]
  | cons c rest ih =>
      intro s k prev
      obtain ⟨cs, cf⟩ := c
      rw [renderJobsOfChunks, combineJobsOfRender, if_neg (by simp),
        combineJobsOfRender, if_pos rfl]
      simp only [List.map_cons, List.length_cons, List.range'_succ]
      rw [ih (s + 2) (k + 1) (some k)]

/-- One combine job per chunk. -/
lemma combineJobsOfRender_length (chunks : List (Nat × Nat)) (s k : Nat)
    (prev : Option Nat) :
    (combineJobsOfRender (renderJobsOfChunks chunks s) k prev).length
      = chunks.length := by
  have h := congrArg List.length (combineJobsOfRender_map_number chunks s k prev)
  simpa using h

/-! ## Claims about the frame planner -/

/-- C1 (counterexample): the plan for `totalFrames = 303`, `chunkSize = 101`
has chunk start frames `0, 101, 202`, not the `0, 91, 182` the claim asserts
(the planner applies no overlap offset at all). -/
theorem C1_counterexample :
    (calcChunks 303 101).map Prod.fst = [0, 101, 202] ∧
      ¬((calcChunks 303 101).map Prod.fst = [0, 91, 182]) := by
  decide

/-- C1 (amended): the planner chains chunks with no overlap — every chunk after
the first starts at `previousStart + previousChunkFrames` (overlap offset 0);
in particular the plan for `totalFrames = 303`, `chunkSize = 101` has exactly 3
chunks with start frames `0, 101, 202` and frame counts `101, 101, 101`, its
HIGH (coarse) render jobs covering exactly those ranges. -/
theorem C1_chunks_abut_no_overlap :
    (∀ total chunk : Nat,
      List.Chain' (fun a b : Nat × Nat => b.1 = a.1 + a.2)
        (calcChunks total chunk)) ∧
    calcChunks 303 101 = [(0, 101), (101, 101), (202, 101)] ∧
    ((calculateJobSequence 303 101).1.filter
        (fun j => decide (j.jobType = .HIGH))).map
        (fun j => (j.startFrame, j.framesToRender))
      = [(0, 101), (101, 101), (202, 101)] := by
  refine ⟨fun total chunk => chunkLoop_chain_adjacent total chunk _ 0,
    by decide, by decide⟩

/-- Exact-arithmetic chunk coverage: with the chunk count given by the exact
integer ceiling (faithful to the program's float-computed `math.ceil` for
`totalFrames < 2^53`, see `numChunks`), the planned chunk frame counts sum to
`totalFrames` and the chunk start frames are strictly increasing, for every
`chunkSize > 0`. -/
lemma calcChunks_coverage_exact (total chunk : Nat) (hch : 0 < chunk) :
    ((calcChunks total chunk).map Prod.snd).sum = total ∧
    List.Chain' (· < ·) ((calcChunks total chunk).map Prod.fst) := by
  have hceil : (total - 0 + chunk - 1) / chunk = numChunks total chunk := by
    simp [numChunks]
  have h := chunkLoop_sum_mono total chunk hch (numChunks total chunk) 0 hceil
  refine ⟨?_, ?_⟩
  · have := h.1
    simpa [calcChunks] using this
  · rw [List.chain'_map]
    exact h.2

/-- C9: for every plan from `totalFrames > 0` and `chunkSize > 0`, the render
jobs carry sequence numbers exactly `1..N` with no gaps, and the combine
(stitch) jobs carry contiguous sequence numbers starting at 1. -/
theorem C9_sequence_numbers_contiguous (total chunk : Nat)
    (ht : 0 < total) (hch : 0 < chunk) :
    ((calculateJobSequence total chunk).1.map (fun j => j.jobNumber)
        = List.range' 1 (calculateJobSequence total chunk).1.length) ∧
    ((calculateJobSequence total chunk).2.map (fun c => c.combineNumber)
        = List.range' 1 (calculateJobSequence total chunk).2.length) := by
  constructor
  · rw [calculateJobSequence]
    simp only []
    rw [renderJobsOfChunks_map_jobNumber, renderJobsOfChunks_length]
  · rw [calculateJobSequence]
    simp only []
    rw [combineJobsOfRender_map_number, combineJobsOfRender_length]

/-- C9 witness at `totalFrames = 202`, `chunkSize = 101`. -/
theorem C9_witness :
    0 < 202 ∧ 0 < 101 ∧
      (((calculateJobSequence 202 101).1.map (fun j => j.jobNumber)
          = List.range' 1 (calculateJobSequence 202 101).1.length) ∧
        ((calculateJobSequence 202 101).2.map (fun c => c.combineNumber)
          = List.range' 1 (calculateJobSequence 202 101).2.length)) :=
  ⟨by decide, by decide, C9_sequence_numbers_contiguous 202 101 (by decide) (by decide)⟩

/-! ## Instance model (`models/dual_instance.py`)

Wall-clock fields (`assigned_at`, `started_at`, `completed_at`,
`last_job_time`, `queued_at`) come from `time.time()` and are never read by
the embedded logic, so they are omitted; `host`/`port` are kept as data. -/

/-- `models/dual_instance.py`: `InstanceStatus`. -/
inductive InstanceStatus
  | IDLE
  | BUSY
  | CONNECTING
  | DISCONNECTED
  | ERROR
deriving DecidableEq, Repr

/-- `models/dual_instance.py`: `ComfyUIInstanceConfig`. -/
structure ComfyUIInstanceConfig where
  instanceId : String
  host : String := "127.0.0.1"
  port : Nat := 8188
  jobTypes : List String
  maxConcurrent : Nat := 1
  enabled : Bool := true
  status : InstanceStatus := .IDLE
deriving DecidableEq, Repr

/-- `ComfyUIInstanceConfig.can_handle_job_type` (enum branch:
`job_type.value in self.job_types`). -/
def canHandleJobType (cfg : ComfyUIInstanceConfig) (jt : JobType) : Bool :=
  decide (jt.value ∈ cfg.jobTypes)

/-- `models/dual_instance.py`: `InstanceMetrics` (times as `ℚ`). -/
structure InstanceMetrics where
  instanceId : String
  jobsCompleted : Nat := 0
  jobsFailed : Nat := 0
  totalExecutionTime : ℚ := 0
  avgExecutionTime : ℚ := 0
deriving DecidableEq, Repr

/-- `InstanceMetrics.update_job_completion`. -/
def updateJobCompletion (m : InstanceMetrics) (executionTime : ℚ)
    (success : Bool) : InstanceMetrics :=
  if success then
    let completed := m.jobsCompleted + 1
    let total := m.totalExecutionTime + executionTime
    { m with jobsCompleted := completed, totalExecutionTime := total,
             avgExecutionTime := total / ((max 1 completed : Nat) : ℚ) }
  else
    { m with jobsFailed := m.jobsFailed + 1 }

/-- `models/dual_instance.py`: `JobAssignment` (identity fields only). -/
structure JobAssignment where
  jobId : String
  jobType : JobType
  instanceId : String
  promptName : String
deriving DecidableEq, Repr

/-! ## Association-list helpers (Python `dict` / `defaultdict`) -/

/-- Keyed lookup, `dict.get`. -/
def alistGet {β : Type} (k : String) : List (String × β) → Option β
  | [] => none
  | (k₁, v) :: rest => if k = k₁ then some v else alistGet k rest

/-- Keyed insert-or-overwrite, `dict[k] = v` (insertion order preserved). -/
def alistSet {β : Type} (k : String) (v : β) : List (String × β) →
    List (String × β)
  | [] => [(k, v)]
  | (k₁, v₁) :: rest =>
      if k = k₁ then (k, v) :: rest else (k₁, v₁) :: alistSet k v rest

/-- In-place update of an existing key (no-op when absent; the Python dict
access would raise, but every embedded call site has the key present). -/
def alistUpdate {β : Type} (k : String) (f : β → β) : List (String × β) →
    List (String × β)
  | [] => []
  | (k₁, v) :: rest =>
      if k = k₁ then (k₁, f v) :: rest else (k₁, v) :: alistUpdate k f rest

/-- Key removal, `del dict[k]`. -/
def alistRemove {β : Type} (k : String) : List (String × β) → List (String × β)
  | [] => []
  | (k₁, v) :: rest => if k = k₁ then rest else (k₁, v) :: alistRemove k rest

/-! ## Job queue manager (`services/job_queue_manager.py`) -/

/-- `job_queue_manager.py`: `QueuedJob` (without the `queued_at` timestamp). -/
structure QueuedJob where
  job : RenderJob
  promptName : String
  priority : Int := 0
deriving DecidableEq, Repr

/-- `prompt_job_counts[p]`: per-prompt totals (defaultdict default 0/0/0). -/
structure PromptJobCounts where
  high : Nat := 0
  low : Nat := 0
  combine : Nat := 0
deriving DecidableEq, Repr

/-- `prompt_completed_counts[p]` (defaultdict default 0/0). -/
structure PromptCompletedCounts where
  high : Nat := 0
  low : Nat := 0
deriving DecidableEq, Repr

/-- The mutable state of a `JobQueueManager`: the instance configs (shared by
`self.instances` and `self.state.instances`, which alias the same config
objects), the per-instance metrics, the three FIFO queues (list head = front),
the `DualInstanceState` counters and barrier flag, the `combine_ready_event`,
the per-prompt counters, and the active-job assignments. -/
structure QMState where
  instances : List ComfyUIInstanceConfig
  metrics : List (String × InstanceMetrics)
  highQueue : List QueuedJob := []
  lowQueue : List QueuedJob := []
  combineQueue : List (CombineJob × String) := []
  highJobsPending : Int := 0
  lowJobsPending : Int := 0
  combineJobsPending : Int := 0
  combineJobsReady : Bool := false
  combineReadyEventSet : Bool := false
  promptJobCounts : List (String × PromptJobCounts) := []
  promptCompletedCounts : List (String × PromptCompletedCounts) := []
  activeJobs : List (String × JobAssignment) := []
deriving DecidableEq, Repr

/-- `JobQueueManager.__init__`. -/
def initQM (configs : List ComfyUIInstanceConfig) : QMState :=
  { instances := configs,
    metrics := configs.map (fun c => (c.instanceId, { instanceId := c.instanceId })) }

/-- `self.instances.get(instance_id)` (configs are keyed by unique id). -/
def findInstance (st : QMState) (instanceId : String) :
    Option ComfyUIInstanceConfig :=
  st.instances.find? (fun c => decide (c.instanceId = instanceId))

/-- `DualInstanceState.mark_instance_busy` / `mark_instance_idle`: set the
status of the config with the given id (no-op when absent). -/
def setInstanceStatusList (instanceId : String) (s : InstanceStatus)
    (l : List ComfyUIInstanceConfig) : List ComfyUIInstanceConfig :=
  l.map (fun c => if c.instanceId = instanceId then { c with status := s } else c)

/-- Total HIGH+LOW jobs registered for a prompt. -/
def totalPromptJobs (st : QMState) (promptName : String) : Nat :=
  let counts := (alistGet promptName st.promptJobCounts).getD {}
  counts.high + counts.low

/-- Completed HIGH+LOW jobs recorded for a prompt. -/
def completedPromptJobs (st : QMState) (promptName : String) : Nat :=
  let counts := (alistGet promptName st.promptCompletedCounts).getD {}
  counts.high + counts.low

/-- `JobQueueManager._calculate_priority`: `1000 - job_number`, boosted when
`total_jobs > 0` by `int(completion_ratio * 100)`.  Python evaluates the
boost with binary64 float arithmetic (`completed / total * 100`, truncated
toward zero), which can differ from the exact floor — at `completed = 29`,
`total = 100` it yields 28 because `0.29 * 100 == 28.999999999999996` — so
the embedding takes the boost computation as a parameter
`boost completed total` rather than modelling the float rounding. -/
def calculatePriority (boost : Nat → Nat → Int) (st : QMState)
    (job : RenderJob) (promptName : String) : Int :=
  let basePriority : Int := 1000 - (job.jobNumber : Int)
  if 0 < totalPromptJobs st promptName then
    basePriority +
      boost (completedPromptJobs st promptName) (totalPromptJobs st promptName)
  else
    basePriority

/-- The boost function used by every concrete run in this file: all of them
enqueue while the run's completed count is 0, and at `completed = 0` Python's
float computation is exact (`0 / total == 0.0` and `int(0.0 * 100) == 0`),
so the boost is 0 wherever these runs evaluate it. -/
def zeroBoost : Nat → Nat → Int := fun _ _ => 0

/-- The HIGH-jobs loop of `add_jobs_for_prompt`: wrap each job with its
priority, push it to the back of the HIGH queue, bump the pending counter. -/
def enqueueHighJobs (boost : Nat → Nat → Int) (promptName : String) :
    List RenderJob → QMState → QMState
  | [], st => st
  | job :: rest, st =>
      enqueueHighJobs boost promptName rest
        { st with
            highQueue := st.highQueue ++
              [{ job := job, promptName := promptName,
                 priority := calculatePriority boost st job promptName }],
            highJobsPending := st.highJobsPending + 1 }

/-- The LOW-jobs loop of `add_jobs_for_prompt`. -/
def enqueueLowJobs (boost : Nat → Nat → Int) (promptName : String) :
    List RenderJob → QMState → QMState
  | [], st => st
  | job :: rest, st =>
      enqueueLowJobs boost promptName rest
        { st with
            lowQueue := st.lowQueue ++
              [{ job := job, promptName := promptName,
                 priority := calculatePriority boost st job promptName }],
            lowJobsPending := st.lowJobsPending + 1 }

/-- The combine-jobs loop of `add_jobs_for_prompt`. -/
def enqueueCombineJobs (promptName : String) :
    List CombineJob → QMState → QMState
  | [], st => st
  | job :: rest, st =>
      enqueueCombineJobs promptName rest
        { st with
            combineQueue := st.combineQueue ++ [(job, promptName)],
            combineJobsPending := st.combineJobsPending + 1 }

/-- `JobQueueManager.add_jobs_for_prompt`: record per-prompt totals, then
enqueue HIGH, LOW and COMBINE jobs. -/
def addJobsForPrompt (boost : Nat → Nat → Int) (st : QMState)
    (renderJobs : List RenderJob) (combineJobs : List CombineJob)
    (promptName : String) : QMState :=
  let highJobs := renderJobs.filter (fun j => decide (j.jobType = .HIGH))
  let lowJobs := renderJobs.filter (fun j => decide (j.jobType = .LOW))
  let newCounts : PromptJobCounts :=
    { high := highJobs.length, low := lowJobs.length,
      combine := combineJobs.length }
  let st₁ :=
    { st with promptJobCounts := alistSet promptName newCounts st.promptJobCounts }
  enqueueCombineJobs promptName combineJobs
    (enqueueLowJobs boost promptName lowJobs
      (enqueueHighJobs boost promptName highJobs st₁))

/-- `JobQueueManager.get_next_job`: a HIGH job if the instance accepts HIGH
and one is queued, otherwise a LOW job if accepted and queued, otherwise
nothing.  On dispatch the job is recorded in `active_jobs`, the instance is
marked BUSY, and the per-type pending counter is decremented — no dependency
check of any kind is performed. -/
def getNextJob (st : QMState) (instanceId : String) :
    Option (RenderJob × String) × QMState :=
  match findInstance st instanceId with
  | none => (none, st)
  | some inst =>
      if inst.enabled then
        match canHandleJobType inst .HIGH, st.highQueue with
        | true, qj :: restQueue =>
            (some (qj.job, qj.promptName),
              { st with
                  highQueue := restQueue,
                  activeJobs := alistSet qj.job.jobId
                    { jobId := qj.job.jobId, jobType := qj.job.jobType,
                      instanceId := instanceId, promptName := qj.promptName }
                    st.activeJobs,
                  instances := setInstanceStatusList instanceId .BUSY st.instances,
                  highJobsPending := st.highJobsPending - 1 })
        | _, _ =>
            match canHandleJobType inst .LOW, st.lowQueue with
            | true, qj :: restQueue =>
                (some (qj.job, qj.promptName),
                  { st with
                      lowQueue := restQueue,
                      activeJobs := alistSet qj.job.jobId
                        { jobId := qj.job.jobId, jobType := qj.job.jobType,
                          instanceId := instanceId, promptName := qj.promptName }
                        st.activeJobs,
                      instances := setInstanceStatusList instanceId .BUSY st.instances,
                      lowJobsPending := st.lowJobsPending - 1 })
            | _, _ => (none, st)
      else (none, st)

/-- `DualInstanceState.can_start_combine_jobs`: both render pending counters
are zero (counters that are decremented at dequeue time, not completion). -/
def canStartCombineJobs (st : QMState) : Bool :=
  decide (st.highJobsPending = 0) && decide (st.lowJobsPending = 0)

/-- `JobQueueManager.get_next_combine_job`: gated only on
`can_start_combine_jobs`, then pops the combine queue. -/
def getNextCombineJob (st : QMState) : Option (CombineJob × String) × QMState :=
  if canStartCombineJobs st then
    match st.combineQueue with
    | (job, promptName) :: restQueue =>
        (some (job, promptName),
          { st with combineQueue := restQueue,
                    combineJobsPending := st.combineJobsPending - 1 })
    | [] => (none, st)
  else (none, st)

/-- Bump the completed counter for the assignment's job type. -/
def incCompletedCount (jt : JobType) (c : PromptCompletedCounts) :
    PromptCompletedCounts :=
  match jt with
  | .HIGH => { c with high := c.high + 1 }
  | .LOW => { c with low := c.low + 1 }

/-- `JobQueueManager.mark_job_completed`: unknown job ids return with no state
change; otherwise mark the instance idle, update its metrics, bump the
prompt's completed counters, signal the combine barrier (flag plus event) the
first time both pending counters are zero, and drop the active assignment. -/
def markJobCompleted (st : QMState) (jobId : String) (success : Bool)
    (executionTime : ℚ) : QMState :=
  match alistGet jobId st.activeJobs with
  | none => st
  | some assignment =>
      let st₁ := { st with
        instances := setInstanceStatusList assignment.instanceId .IDLE st.instances }
      let st₂ := { st₁ with
        metrics := alistUpdate assignment.instanceId
          (fun m => updateJobCompletion m executionTime success) st₁.metrics }
      let st₃ := { st₂ with
        promptCompletedCounts :=
          alistSet assignment.promptName
            (incCompletedCount assignment.jobType
              ((alistGet assignment.promptName st₂.promptCompletedCounts).getD {}))
            st₂.promptCompletedCounts }
      let st₄ :=
        if canStartCombineJobs st₃ && !st₃.combineJobsReady then
          { st₃ with combineJobsReady := true, combineReadyEventSet := true }
        else st₃
      { st₄ with activeJobs := alistRemove jobId st₄.activeJobs }

/-- `JobQueueManager.mark_job_failed`: delegates to `mark_job_completed` with
`success=False` (default execution time 0). -/
def markJobFailed (st : QMState) (jobId : String) : QMState :=
  markJobCompleted st jobId false 0

/-! ## Claims about the job queue manager -/

/-- A single instance accepting both stages, used for the C2 run. -/
def traceInstance : ComfyUIInstanceConfig :=
  { instanceId := "inst1", jobTypes := ["HIGH", "LOW"] }

/-- The single HIGH render job of the C2 run. -/
def highJob1 : RenderJob := { jobId := "h1", jobNumber := 1, jobType := .HIGH }

/-- The single combine (stitch) job of the C2 run. -/
def combineJob1 : CombineJob :=
  { jobId := "c1", combineNumber := 1, inputFromJobNumber := 2 }

/-- C2 run after enqueueing one HIGH job and one combine job. -/
def c2state1 : QMState :=
  addJobsForPrompt zeroBoost (initQM [traceInstance]) [highJob1] [combineJob1] "p"

/-- C2 run after the HIGH job has been dequeued (dispatched, still running). -/
def c2state2 : QMState := (getNextJob c2state1 "inst1").2

/-- C2 (code violation at the failing input): after the run's only HIGH job is
dequeued (so it is running, recorded in `active_jobs`, and not completed), the
stitch-dequeue `get_next_combine_job` already returns the run's combine job,
because the pending counters it gates on are decremented at dequeue time
rather than at completion. -/
theorem C2_combine_dispatched_while_render_running :
    (getNextJob c2state1 "inst1").1 = some (highJob1, "p") ∧
    (alistGet "h1" c2state2.activeJobs).isSome = true ∧
    (getNextCombineJob c2state2).1 = some (combineJob1, "p") :=
  ⟨rfl, rfl, rfl⟩

/-- An instance accepting only LOW jobs, used for the C3 run. -/
def c3instLow : ComfyUIInstanceConfig :=
  { instanceId := "iLow", jobTypes := ["LOW"] }

/-- Chunk 1's HIGH job in the C3 run. -/
def c3high1 : RenderJob := { jobId := "c3h1", jobNumber := 1, jobType := .HIGH }

/-- Chunk 1's LOW job in the C3 run (depends on `c3high1`). -/
def c3low2 : RenderJob := { jobId := "c3l2", jobNumber := 2, jobType := .LOW }

/-- C3 run after enqueueing chunk 1's HIGH and LOW jobs on a two-instance
pool. -/
def c3state1 : QMState :=
  addJobsForPrompt zeroBoost
    (initQM [{ instanceId := "iHigh", jobTypes := ["HIGH"] }, c3instLow])
    [c3high1, c3low2] [] "p"

/-- C3 (code violation at the failing input): the LOW-only instance is handed
chunk 1's LOW job while chunk 1's HIGH job — the dependency reported by
`get_job_dependencies`, not yet completed and in fact still queued — has not
even been dispatched: `get_next_job` performs no dependency check. -/
theorem C3_low_dispatched_before_high_completes :
    (getNextJob c3state1 "iLow").1 = some (c3low2, "p") ∧
    getJobDependencies c3low2 = [1] ∧
    ((getNextJob c3state1 "iLow").2.highQueue.map fun qj => qj.job.jobNumber)
      = [1] ∧
    canJobRun c3low2 [] = false :=
  ⟨rfl, rfl, rfl, rfl⟩

/-- A HIGH-only instance used for the C4 run. -/
def c4inst : ComfyUIInstanceConfig := { instanceId := "i1", jobTypes := ["HIGH"] }

/-- Prompt A's first HIGH job (sequence number 1). -/
def jobA1 : RenderJob := { jobId := "a1", jobNumber := 1, jobType := .HIGH }

/-- Prompt A's second HIGH job (sequence number 3). -/
def jobA3 : RenderJob := { jobId := "a3", jobNumber := 3, jobType := .HIGH }

/-- Prompt B's HIGH job (sequence number 1). -/
def jobB1 : RenderJob := { jobId := "b1", jobNumber := 1, jobType := .HIGH }

/-- C4 run after enqueueing prompt A (jobs 1 and 3) and then prompt B (job 1):
the HIGH queue holds priorities `[999, 997, 999]`. -/
def c4state2 : QMState :=
  addJobsForPrompt zeroBoost
    (addJobsForPrompt zeroBoost (initQM [c4inst]) [jobA1, jobA3] [] "A")
    [jobB1] [] "B"

/-- C4 run after one dequeue (job A1, priority 999, was handed out). -/
def c4state3 : QMState := (getNextJob c4state2 "i1").2

/-- C4 (counterexample): with the HIGH queue holding priorities `[997, 999]`,
the dequeue returns the front job of priority 997 while a queued job of the
same stage has the strictly higher priority 999 — the queues are FIFO and the
stored priority never influences dequeue order, refuting "the dequeue
operation returns the highest-priority one". -/
theorem C4_counterexample :
    (getNextJob c4state3 "i1").1 = some (jobA3, "A") ∧
    c4state3.highQueue.map (fun qj => qj.priority) = [997, 999] ∧
    ¬((997 : Int) ≥ 999) :=
  ⟨rfl, rfl, by decide⟩

/-- C4 (amended): `get_next_job` serves the stage queues in FIFO order of
enqueue — when the instance accepts HIGH and a HIGH job is queued it returns
the front HIGH job; otherwise, when it accepts LOW and a LOW job is queued,
it returns the front LOW job.  The priority stored on a queued job equals
`1000 - sequenceNumber` plus the run's completion boost at enqueue time (the
float-computed `int(completed / total * 100)`, exactly 0 while nothing of the
run has completed), but the stored priority never influences dequeue order. -/
theorem C4_fifo_dequeue_and_priority_formula :
    (∀ (st : QMState) (instanceId : String) (inst : ComfyUIInstanceConfig)
        (qj : QueuedJob) (restQueue : List QueuedJob),
      findInstance st instanceId = some inst → inst.enabled = true →
      canHandleJobType inst .HIGH = true → st.highQueue = qj :: restQueue →
      (getNextJob st instanceId).1 = some (qj.job, qj.promptName) ∧
        (getNextJob st instanceId).2.highQueue = restQueue) ∧
    (∀ (st : QMState) (instanceId : String) (inst : ComfyUIInstanceConfig)
        (qj : QueuedJob) (restQueue : List QueuedJob),
      findInstance st instanceId = some inst → inst.enabled = true →
      canHandleJobType inst .LOW = true →
      (canHandleJobType inst .HIGH = false ∨ st.highQueue = []) →
      st.lowQueue = qj :: restQueue →
      (getNextJob st instanceId).1 = some (qj.job, qj.promptName) ∧
        (getNextJob st instanceId).2.lowQueue = restQueue) ∧
    (∀ (boost : Nat → Nat → Int) (st : QMState) (job : RenderJob)
        (promptName : String),
      (0 < totalPromptJobs st promptName →
        calculatePriority boost st job promptName
          = 1000 - (job.jobNumber : Int) +
              boost (completedPromptJobs st promptName)
                (totalPromptJobs st promptName)) ∧
      (totalPromptJobs st promptName = 0 →
        calculatePriority boost st job promptName
          = 1000 - (job.jobNumber : Int))) := by
  refine ⟨?_, ?_, ?_⟩
  · intro st instanceId inst qj restQueue hfind hen hcap hq
    rw [getNextJob, hfind]
    simp only [hen, if_true, hcap, hq]
    exact ⟨trivial, trivial⟩
  · intro st instanceId inst qj restQueue hfind hen hcap hno hq
    rw [getNextJob, hfind]
    cases hcapH : canHandleJobType inst .HIGH with
    | false =>
        cases hq2 : st.highQueue with
        | nil =>
            simp only [hen, if_true, hcapH, hq2, hcap, hq]
            exact ⟨trivial, trivial⟩
        | cons a as =>
            simp only [hen, if_true, hcapH, hq2, hcap, hq]
            exact ⟨trivial, trivial⟩
    | true =>
        have hq2 : st.highQueue = [] := by
          rcases hno with hh | hh
          · rw [hcapH] at hh
            exact absurd hh (by simp)
          · exact hh
        simp only [hen, if_true, hcapH, hq2, hcap, hq]
        exact ⟨trivial, trivial⟩
  · intro boost st job promptName
    constructor
    · intro hpos
      rw [calculatePriority, if_pos hpos]
    · intro hz
      rw [calculatePriority, if_neg (by omega)]

/-- C4 witness: FIFO on the HIGH queue at the concrete C4 run (the front job
A1 is dequeued first), FIFO on the LOW queue at the concrete C3 state (the
LOW-only instance receives the front LOW job), and the priority formula for
prompt A of the C4 run. -/
theorem C4_witness :
    (findInstance c4state2 "i1" = some c4inst ∧ c4inst.enabled = true ∧
      canHandleJobType c4inst .HIGH = true ∧
      c4state2.highQueue
        = { job := jobA1, promptName := "A", priority := 999 } ::
          ({ job := jobA3, promptName := "A", priority := 997 } ::
            [{ job := jobB1, promptName := "B", priority := 999 }])) ∧
    ((getNextJob c4state2 "i1").1 = some (jobA1, "A") ∧
      (getNextJob c4state2 "i1").2.highQueue
        = { job := jobA3, promptName := "A", priority := 997 } ::
          [{ job := jobB1, promptName := "B", priority := 999 }]) ∧
    (canHandleJobType c3instLow .HIGH = false ∧
      c3state1.lowQueue
        = [{ job := c3low2, promptName := "p", priority := 998 }] ∧
      ((getNextJob c3state1 "iLow").1 = some (c3low2, "p") ∧
        (getNextJob c3state1 "iLow").2.lowQueue = [])) ∧
    (0 < totalPromptJobs c4state2 "A" ∧
      calculatePriority zeroBoost c4state2 jobA3 "A"
        = 1000 - ((3 : Nat) : Int) +
            zeroBoost (completedPromptJobs c4state2 "A")
              (totalPromptJobs c4state2 "A")) :=
  ⟨⟨rfl, rfl, rfl, rfl⟩,
    C4_fifo_dequeue_and_priority_formula.1 c4state2 "i1" c4inst
      { job := jobA1, promptName := "A", priority := 999 }
      ({ job := jobA3, promptName := "A", priority := 997 } ::
        [{ job := jobB1, promptName := "B", priority := 999 }]) rfl rfl rfl rfl,
    ⟨rfl, rfl,
      C4_fifo_dequeue_and_priority_formula.2.1 c3state1 "iLow" c3instLow
        { job := c3low2, promptName := "p", priority := 998 } [] rfl rfl rfl
        (Or.inl rfl) rfl⟩,
    ⟨by decide,
      (C4_fifo_dequeue_and_priority_formula.2.2 zeroBoost c4state2 jobA3 "A").1
        (by decide)⟩⟩

/-- C10: completing (or failing, which delegates to completing) a job id that
is not in the active-job set leaves the entire queue-manager state unchanged:
queues, pending counters, metrics, instance statuses, per-prompt counts, and
the barrier flags. -/
theorem C10_unknown_completion_is_noop (st : QMState) (jobId : String)
    (success : Bool) (executionTime : ℚ)
    (h : alistGet jobId st.activeJobs = none) :
    markJobCompleted st jobId success executionTime = st ∧
      markJobFailed st jobId = st := by
  constructor
  · rw [markJobCompleted, h]
  · rw [markJobFailed, markJobCompleted, h]

/-- The queue-manager state used for the C10 witness. -/
def c10state : QMState := initQM [c4inst]

/-- C10 witness at a concrete state and absent job id. -/
theorem C10_witness :
    alistGet "ghost" c10state.activeJobs = none ∧
      (markJobCompleted c10state "ghost" true 5 = c10state ∧
        markJobFailed c10state "ghost" = c10state) :=
  ⟨rfl, C10_unknown_completion_is_noop c10state "ghost" true 5 rfl⟩

/-! ## Backend instance pool (`services/multi_instance_client.py`)

The underlying HTTP client objects and their locks are pure machinery around
the external backend; the pool state that the claims concern is the config
dict (with per-instance `status`) and the `health_status` dict.  A health
probe outcome (`get_queue_status() is not None`, exceptions included as
failure) is a `Bool` parameter per instance id; a connect outcome likewise. -/

/-- The observable state of a `MultiInstanceComfyUIClient`. -/
structure MIState where
  configs : List ComfyUIInstanceConfig
  healthStatus : List (String × Bool)
deriving DecidableEq, Repr

/-- `MultiInstanceComfyUIClient.__init__`: all instances start unhealthy. -/
def initMI (configs : List ComfyUIInstanceConfig) : MIState :=
  { configs := configs,
    healthStatus := configs.map (fun c => (c.instanceId, false)) }

/-- `self.configs[instance_id]`-style lookup (ids are unique dict keys). -/
def findConfig (st : MIState) (instanceId : String) :
    Option ComfyUIInstanceConfig :=
  st.configs.find? (fun c => decide (c.instanceId = instanceId))

/-- Status of the config with the given id, if present. -/
def statusOfMI (st : MIState) (instanceId : String) : Option InstanceStatus :=
  (findConfig st instanceId).map (fun c => c.status)

/-- The per-instance body of `health_check_all`: disabled instances are left
alone; a healthy probe recovers an ERROR instance to IDLE; an unhealthy probe
(or an exception) sets the status to ERROR — after a single failure. -/
def healthCheckStep (probe : String → Bool) (cfg : ComfyUIInstanceConfig) :
    ComfyUIInstanceConfig :=
  if cfg.enabled then
    if probe cfg.instanceId then
      if cfg.status = .ERROR then { cfg with status := .IDLE } else cfg
    else { cfg with status := .ERROR }
  else cfg

/-- `MultiInstanceComfyUIClient.health_check_all`: apply the probe to every
configured instance, updating statuses and the health dict (disabled
instances keep their previous health entry). -/
def healthCheckAll (st : MIState) (probe : String → Bool) : MIState :=
  { configs := st.configs.map (healthCheckStep probe),
    healthStatus := st.configs.foldl
      (fun hs cfg =>
        if cfg.enabled then alistSet cfg.instanceId (probe cfg.instanceId) hs
        else hs)
      st.healthStatus }

/-- `MultiInstanceComfyUIClient.get_available_instances`: enabled, IDLE,
healthy instances, optionally filtered by accepted job type. -/
def getAvailableInstances (st : MIState) (jobType : Option String) :
    List String :=
  (st.configs.filter (fun cfg =>
      cfg.enabled && decide (cfg.status = .IDLE) &&
        (alistGet cfg.instanceId st.healthStatus).getD false &&
        (match jobType with
         | none => true
         | some jt => cfg.jobTypes.contains jt))).map
    (fun cfg => cfg.instanceId)

/-- `MultiInstanceComfyUIClient._connect_instance` (the `reconnect` path used
by `reconnect_failed_instances`): status passes through CONNECTING and ends
IDLE with health `true` on success, ERROR with health `false` on failure. -/
def connectInstance (st : MIState) (instanceId : String) (ok : Bool) :
    Bool × MIState :=
  if ok then
    (true,
      { configs := setInstanceStatusList instanceId .IDLE st.configs,
        healthStatus := alistSet instanceId true st.healthStatus })
  else
    (false,
      { configs := setInstanceStatusList instanceId .ERROR st.configs,
        healthStatus := alistSet instanceId false st.healthStatus })

/-! ### Helper lemmas for the instance pool -/

/-- Looking up the key just set returns the new value. -/
lemma alistGet_set_self {β : Type} (k : String) (v : β) :
    ∀ l : List (String × β), alistGet k (alistSet k v l) = some v := by
  intro l
  induction l with
  | nil => simp [alistSet, alistGet]
  | cons p rest ih =>
      obtain ⟨k₁, v₁⟩ := p
      by_cases hk : k = k₁
      · simp [alistSet, alistGet, hk]
      · simp [alistSet, alistGet, hk, ih]

/-- `healthCheckStep` never changes the instance id. -/
lemma healthCheckStep_instanceId (probe : String → Bool)
    (cfg : ComfyUIInstanceConfig) :
    (healthCheckStep probe cfg).instanceId = cfg.instanceId := by
  rw [healthCheckStep]
  split
  · split
    · split <;> rfl
    · rfl
  · rfl

/-- `setInstanceStatusList` preserves ids, enabled flags and job types, and
sets the status of every config with the given id. -/
lemma setInstanceStatusList_spec (instanceId : String) (s : InstanceStatus)
    (cfg : ComfyUIInstanceConfig) (h : cfg.instanceId = instanceId) :
    (if cfg.instanceId = instanceId then { cfg with status := s } else cfg)
      = { cfg with status := s } := by
  rw [if_pos h]

/-- Finding a config by id after `healthCheckAll` finds the stepped config. -/
lemma findConfig_healthCheckAll (st : MIState) (probe : String → Bool)
    (instanceId : String) :
    findConfig (healthCheckAll st probe) instanceId
      = (st.configs.find? (fun c => decide (c.instanceId = instanceId))).map
          (healthCheckStep probe) := by
  rw [findConfig]
  show (st.configs.map (healthCheckStep probe)).find? _ = _
  induction st.configs with
  | nil => rfl
  | cons c rest ih =>
      simp only [List.map_cons, List.find?_cons]
      rw [healthCheckStep_instanceId]
      by_cases hc : c.instanceId = instanceId
      · simp [hc]
      · rw [decide_eq_false hc]
        exact ih

/-! ## Claims about the backend instance pool -/

/-- The C7 instance: enabled, IDLE, accepting both stages. -/
def c7cfg : ComfyUIInstanceConfig :=
  { instanceId := "e1", jobTypes := ["HIGH", "LOW"] }

/-- The C7 pool: one connected (healthy, IDLE) instance. -/
def c7state0 : MIState := { configs := [c7cfg], healthStatus := [("e1", true)] }

/-- C7 (counterexample): a single failed health check already flips the IDLE
instance to ERROR, refuting "a single failed health check does not flip it to
ERROR" (there is no two-consecutive-failures counter in the code). -/
theorem C7_counterexample :
    statusOfMI c7state0 "e1" = some .IDLE ∧
      statusOfMI (healthCheckAll c7state0 (fun _ => false)) "e1" = some .ERROR :=
  ⟨rfl, rfl⟩

/-- C7 (amended): (1) one failed health check on an enabled instance sets its
status to ERROR; (2) only enabled, IDLE, healthy instances are ever selected
(so an ERROR instance is excluded); (3) after a successful reconnect the
instance is IDLE and healthy again and, when it accepts the requested stage,
eligible for selection. -/
theorem C7_single_failure_error_and_recovery :
    (∀ (st : MIState) (probe : String → Bool) (instanceId : String)
        (cfg : ComfyUIInstanceConfig),
      findConfig st instanceId = some cfg → cfg.enabled = true →
      probe instanceId = false →
      statusOfMI (healthCheckAll st probe) instanceId = some .ERROR) ∧
    (∀ (st : MIState) (jobType : Option String) (instanceId : String),
      instanceId ∈ getAvailableInstances st jobType →
      ∃ cfg, cfg ∈ st.configs ∧ cfg.instanceId = instanceId ∧
        cfg.enabled = true ∧ cfg.status = .IDLE ∧
        (alistGet instanceId st.healthStatus).getD false = true) ∧
    (∀ (st : MIState) (instanceId : String) (cfg : ComfyUIInstanceConfig)
        (jt : String),
      findConfig st instanceId = some cfg → cfg.enabled = true →
      cfg.jobTypes.contains jt = true →
      instanceId ∈ getAvailableInstances (connectInstance st instanceId true).2
        (some jt)) := by
  refine ⟨?_, ?_, ?_⟩
  · intro st probe instanceId cfg hfind hen hprobe
    have hid : cfg.instanceId = instanceId := by
      have := List.find?_some hfind
      simpa using this
    rw [statusOfMI, findConfig_healthCheckAll]
    rw [findConfig] at hfind
    rw [hfind]
    simp [healthCheckStep, hen, hid, hprobe]
  · intro st jobType instanceId hmem
    rw [getAvailableInstances] at hmem
    simp only [List.mem_map, List.mem_filter, Bool.and_eq_true,
      decide_eq_true_eq] at hmem
    obtain ⟨cfg, ⟨hin, ⟨⟨hen, hidle⟩, hhealth⟩, _⟩, hid⟩ := hmem
    exact ⟨cfg, hin, hid, hen, hidle, by rw [hid] at hhealth ; exact hhealth⟩
  · intro st instanceId cfg jt hfind hen hjt
    have hid : cfg.instanceId = instanceId := by
      have := List.find?_some hfind
      simpa using this
    have hin : cfg ∈ st.configs := List.mem_of_find?_eq_some hfind
    rw [connectInstance]
    simp only [if_true]
    rw [getAvailableInstances]
    simp only [List.mem_map, List.mem_filter]
    refine ⟨{ cfg with status := .IDLE }, ⟨?_, ?_⟩, hid⟩
    · rw [setInstanceStatusList]
      exact List.mem_map.mpr ⟨cfg, hin, by simp [hid]⟩
    · have hjt2 : jt ∈ cfg.jobTypes := by
        rw [List.contains_eq_any_beq] at hjt
        simp only [List.any_eq_true, beq_iff_eq] at hjt
        obtain ⟨x, hx, hxeq⟩ := hjt
        rw [hxeq]
        exact hx
      simp [hen, hjt2, hid, alistGet_set_self]

/-- C7 witness: the concrete single-instance pool — one failed probe puts the
instance in ERROR; any selected instance must be IDLE and healthy; after a
successful reconnect of the failed instance it is selectable again for HIGH
jobs. -/
theorem C7_witness :
    statusOfMI (healthCheckAll c7state0 (fun _ => false)) "e1" = some .ERROR ∧
    (∃ cfg, cfg ∈ c7state0.configs ∧ cfg.instanceId = "e1" ∧
      cfg.enabled = true ∧ cfg.status = .IDLE ∧
      (alistGet "e1" c7state0.healthStatus).getD false = true) ∧
    "e1" ∈ getAvailableInstances
      (connectInstance (healthCheckAll c7state0 (fun _ => false)) "e1" true).2
      (some "HIGH") :=
  ⟨C7_single_failure_error_and_recovery.1 c7state0 (fun _ => false) "e1" c7cfg
      rfl rfl rfl,
    C7_single_failure_error_and_recovery.2.1 c7state0 none "e1" (by decide),
    C7_single_failure_error_and_recovery.2.2
      (healthCheckAll c7state0 (fun _ => false)) "e1"
      { c7cfg with status := .ERROR } "HIGH" rfl rfl rfl⟩

/-! ## Orchestration with retry (`services/comfyui_client.py`,
`services/job_orchestrator.py`)

The backend is an oracle: `outcome attempt` tells whether the attempt with
that index (queueing plus waiting for completion) succeeds.  In
`JobOrchestrator.execute_render_jobs` each job is executed once through
`execute_single_render_job`, which calls `execute_with_retry` (up to
`MAX_RETRIES` internal attempts) and increments `job.retry_count` only when
the whole call fails. -/

/-- The attempt loop of `ComfyUIClient.execute_with_retry`: try attempts in
order until one succeeds or the remaining budget is exhausted. -/
def executeWithRetryGo (outcome : Nat → Bool) : Nat → Nat → Bool
  | _, 0 => false
  | attempt, rem + 1 =>
      if outcome attempt then true
      else executeWithRetryGo outcome (attempt + 1) rem

/-- `ComfyUIClient.execute_with_retry`: success of the overall call. -/
def executeWithRetry (outcome : Nat → Bool) (maxRetries : Nat) : Bool :=
  executeWithRetryGo outcome 0 maxRetries

/-- `JobOrchestrator.execute_single_render_job`: build the workflow, run it
with retry; on overall failure increment `retry_count`.  Returns the
`JobResult` success flag and the (possibly updated) job. -/
def executeSingleRenderJob (outcome : Nat → Bool) (job : RenderJob) :
    Bool × RenderJob :=
  if executeWithRetry outcome MAX_RETRIES then (true, job)
  else (false, { job with retryCount := job.retryCount + 1 })

/-- Observable outcome of `JobOrchestrator.execute_render_jobs`: the
`JobResult` success flags in execution order, the final job list (with final
statuses and retry counts), the orchestrator's `completed_jobs` /
`failed_jobs` lists, and how many times `save_state` ran. -/
structure RenderRunOutcome where
  results : List Bool
  jobs : List RenderJob
  completedJobs : List Nat
  failedJobs : List Nat
  saveCount : Nat
deriving DecidableEq, Repr

/-- `JobOrchestrator.execute_render_jobs`: run jobs in sequence, skipping
SKIPPED jobs and jobs already in `completed_jobs` (resume); on success record
completion and mark COMPLETED; on failure record the failure, save state, and
stop the loop iff the job's (incremented) retry count has reached
`MAX_RETRIES` — the remaining jobs are then left untouched. -/
def executeRenderJobsGo (backend : Nat → Nat → Bool) :
    List RenderJob → List Nat → List Nat → Nat → RenderRunOutcome
  | [], completed, failed, saves =>
      { results := [], jobs := [], completedJobs := completed,
        failedJobs := failed, saveCount := saves }
  | job :: rest, completed, failed, saves =>
      if job.status = .SKIPPED then
        let out := executeRenderJobsGo backend rest completed failed saves
        { out with jobs := job :: out.jobs }
      else if job.jobNumber ∈ completed then
        let out := executeRenderJobsGo backend rest completed failed saves
        { out with jobs := job :: out.jobs }
      else
        match executeSingleRenderJob (backend job.jobNumber) job with
        | (true, job₁) =>
            let out := executeRenderJobsGo backend rest
              (completed ++ [job.jobNumber]) failed saves
            { out with results := true :: out.results,
                       jobs := { job₁ with status := .COMPLETED } :: out.jobs }
        | (false, job₁) =>
            if MAX_RETRIES ≤ job₁.retryCount then
              { results := [false],
                jobs := { job₁ with status := .FAILED } :: rest,
                completedJobs := completed,
                failedJobs := failed ++ [job.jobNumber],
                saveCount := saves + 1 }
            else
              let out := executeRenderJobsGo backend rest completed
                (failed ++ [job.jobNumber]) (saves + 1)
              { out with results := false :: out.results,
                         jobs := { job₁ with status := .FAILED } :: out.jobs }

/-- `execute_render_jobs` from a fresh orchestrator (`completed_jobs = []`,
`failed_jobs = []`, no state saved yet). -/
def executeRenderJobs (backend : Nat → Nat → Bool) (jobs : List RenderJob) :
    RenderRunOutcome :=
  executeRenderJobsGo backend jobs [] [] 0

/-! ## Claims about orchestration and retry -/

/-- The C5 plan: HIGH(1), LOW(2) and the dependent HIGH(3). -/
def c5jobs : List RenderJob :=
  [{ jobNumber := 1, jobType := .HIGH }, { jobNumber := 2, jobType := .LOW },
   { jobNumber := 3, jobType := .HIGH }]

/-- The C5 backend: job 2 (the REFINE/LOW job) fails on attempts 0 and 1 and
succeeds on attempt 2; all other jobs succeed immediately. -/
def c5backend : Nat → Nat → Bool := fun jobNumber attempt =>
  if jobNumber = 2 then decide (attempt = 2) else true

/-- The C5 run outcome. -/
def c5out : RenderRunOutcome := executeRenderJobs c5backend c5jobs

/-- C5 (counterexample): when the LOW job fails twice and succeeds on the
third attempt inside one `execute_with_retry` call with `MAX_RETRIES = 3`,
every job ends COMPLETED and the dependent HIGH(3) runs — but the LOW job's
`retry_count` ends at 0, not the 2 the claim asserts, because internal
attempts never increment `retry_count`. -/
theorem C5_counterexample :
    c5out.jobs.map (fun j => (j.jobNumber, j.status, j.retryCount))
      = [(1, .COMPLETED, 0), (2, .COMPLETED, 0), (3, .COMPLETED, 0)] ∧
    ¬(c5out.jobs.map (fun j => j.retryCount) = [0, 2, 0]) := by
  decide

/-- C5 (amended): if a render job's execution fails on exactly 2 consecutive
attempts and succeeds on the third with `MAX_RETRIES = 3`, the execute call
succeeds, the job ends COMPLETED with `retry_count` unchanged (0 for a fresh
job — internal client attempts do not touch it), and the dependent job
proceeds (is executed and completes). -/
theorem C5_third_attempt_completes_retry_count_zero (o : Nat → Bool)
    (h0 : o 0 = false) (h1 : o 1 = false) (h2 : o 2 = true) :
    executeWithRetry o MAX_RETRIES = true ∧
    (∀ job : RenderJob, executeSingleRenderJob o job = (true, job)) ∧
    (executeRenderJobsGo (fun n a => if n = 2 then o a else true)
        c5jobs [] [] 0).jobs.map (fun j => (j.jobNumber, j.status, j.retryCount))
      = [(1, .COMPLETED, 0), (2, .COMPLETED, 0), (3, .COMPLETED, 0)] := by
  have hsucc : executeWithRetry o MAX_RETRIES = true := by
    rw [executeWithRetry, MAX_RETRIES]
    rw [executeWithRetryGo, h0, executeWithRetryGo, h1, executeWithRetryGo, h2]
    rfl
  refine ⟨hsucc, fun job => by rw [executeSingleRenderJob, if_pos hsucc], ?_⟩
  have hb2 : ∀ a, (fun n a => if n = 2 then o a else true) 2 a = o a := by
    intro a ; simp
  have hb2succ :
      executeWithRetry ((fun n a => if n = 2 then o a else true) 2) MAX_RETRIES
        = true := by
    rw [executeWithRetry, MAX_RETRIES]
    rw [executeWithRetryGo, hb2, h0, executeWithRetryGo, hb2, h1,
      executeWithRetryGo, hb2, h2]
    rfl
  simp [c5jobs, executeRenderJobsGo, executeSingleRenderJob, hb2succ,
    executeWithRetry, executeWithRetryGo, MAX_RETRIES, h0, h1, h2]

/-- C5 witness: a concrete oracle failing on attempts 0 and 1 and succeeding
on attempt 2. -/
theorem C5_witness :
    ((fun a => decide (a = 2)) 0 = false ∧ (fun a => decide (a = 2)) 1 = false ∧
      (fun a => decide (a = 2)) 2 = true) ∧
    (executeWithRetry (fun a => decide (a = 2)) MAX_RETRIES = true ∧
      (∀ job : RenderJob,
        executeSingleRenderJob (fun a => decide (a = 2)) job = (true, job)) ∧
      (executeRenderJobsGo (fun n a => if n = 2 then decide (a = 2) else true)
          c5jobs [] [] 0).jobs.map
          (fun j => (j.jobNumber, j.status, j.retryCount))
        = [(1, .COMPLETED, 0), (2, .COMPLETED, 0), (3, .COMPLETED, 0)]) :=
  ⟨⟨rfl, rfl, rfl⟩,
    C5_third_attempt_completes_retry_count_zero (fun a => decide (a = 2))
      rfl rfl rfl⟩

/-- The C6 failing job: HIGH(1) entering execution with `retry_count = 2`
(one failure away from `MAX_RETRIES = 3`). -/
def c6job1 : RenderJob := { jobNumber := 1, jobType := .HIGH, retryCount := 2 }

/-- The C6 dependent job: LOW(2), which depends on HIGH(1). -/
def c6job2 : RenderJob := { jobNumber := 2, jobType := .LOW }

/-- The C6 run outcome: the backend always fails. -/
def c6out : RenderRunOutcome :=
  executeRenderJobs (fun _ _ => false) [c6job1, c6job2]

/-- C6 (counterexample): when HIGH(1) fails with its retry count reaching
`MAX_RETRIES`, the run halts with the job FAILED — but its dependent LOW(2)
is left PENDING, never marked SKIPPED (nothing in the code ever assigns the
SKIPPED status). -/
theorem C6_counterexample :
    c6out.jobs.map (fun j => (j.jobNumber, j.status))
      = [(1, .FAILED), (2, .PENDING)] ∧
    getJobDependencies c6job2 = [1] ∧
    ¬(JobStatus.PENDING = JobStatus.SKIPPED) := by
  decide

/-- C6 (amended): when a job's execution fails and its incremented retry
count has reached `MAX_RETRIES`, the orchestrator marks that job FAILED,
records it in `failed_jobs`, checkpoints the run state (one more
`save_state`), and halts the run — no further job is executed and the
remaining jobs keep their statuses untouched (they are not marked SKIPPED;
no continue-on-error option exists). -/
theorem C6_max_retries_mark_failed_checkpoint_halt
    (backend : Nat → Nat → Bool) (job : RenderJob) (rest : List RenderJob)
    (completed failed : List Nat) (saves : Nat)
    (hns : ¬(job.status = .SKIPPED)) (hnc : ¬(job.jobNumber ∈ completed))
    (hfail : executeWithRetry (backend job.jobNumber) MAX_RETRIES = false)
    (hmax : MAX_RETRIES ≤ job.retryCount + 1) :
    executeRenderJobsGo backend (job :: rest) completed failed saves
      = { results := [false],
          jobs :=
            { job with retryCount := job.retryCount + 1, status := .FAILED }
              :: rest,
          completedJobs := completed,
          failedJobs := failed ++ [job.jobNumber],
          saveCount := saves + 1 } := by
  rw [executeRenderJobsGo, if_neg hns, if_neg hnc]
  rw [executeSingleRenderJob, if_neg (by rw [hfail] ; exact Bool.false_ne_true)]
  simp only []
  rw [if_pos (by simpa using hmax)]

/-- C6 witness: the concrete always-failing run starting from
`retry_count = 2`. -/
theorem C6_witness :
    (¬(c6job1.status = .SKIPPED) ∧ ¬(c6job1.jobNumber ∈ ([] : List Nat)) ∧
      executeWithRetry ((fun _ _ => false) c6job1.jobNumber) MAX_RETRIES
        = false ∧
      MAX_RETRIES ≤ c6job1.retryCount + 1) ∧
    executeRenderJobsGo (fun _ _ => false) (c6job1 :: [c6job2]) [] [] 0
      = { results := [false],
          jobs := { c6job1 with retryCount := 3, status := .FAILED } :: [c6job2],
          completedJobs := [],
          failedJobs := [1],
          saveCount := 1 } :=
  ⟨⟨by decide, by decide, by decide, by decide⟩,
    C6_max_retries_mark_failed_checkpoint_halt (fun _ _ => false) c6job1
      [c6job2] [] [] 0 (by decide) (by decide) (by decide) (by decide)⟩

end PromptRunner
